import Mathlib

/-!
Shallow embedding of the `payments` Django app (models, idempotency
middleware, views and celery tasks) and proofs about the behaviour the
design document ascribes to it.

Monetary amounts (`DecimalField(max_digits=12, decimal_places=2)`) are
embedded as integer numbers of cents.  Timestamps (`DateTimeField`) are
embedded as a calendar record whose `isoformat` rendering is modelled
concretely.  Database tables are association lists of records; the
`select_for_update` critical sections of the source are sequential
read-modify-write steps on those lists, which captures their semantics
given the row lock they hold.
-/

namespace Payments

/-- A timestamp, as stored by a Django `DateTimeField`. -/
structure DateTime where
  year : Nat
  month : Nat
  day : Nat
  hour : Nat
  minute : Nat
  second : Nat
deriving DecidableEq, Repr

/-- Zero-padded two-digit rendering of a field of a timestamp. -/
def pad2 (n : Nat) : String :=
  if n < 10 then "0" ++ toString n else toString n

/-- `datetime.isoformat()`: the ISO-8601 rendering used by the webhook
payload builder in `tasks.send_webhooks`. -/
def isoFormat (d : DateTime) : String :=
  toString d.year ++ "-" ++ pad2 d.month ++ "-" ++ pad2 d.day ++ "T" ++
    pad2 d.hour ++ ":" ++ pad2 d.minute ++ ":" ++ pad2 d.second

/-- `str(Decimal)` for a two-decimal-place amount held as cents. -/
def decimalString (cents : Int) : String :=
  let n := cents.natAbs
  let sign := if cents < 0 then "-" else ""
  sign ++ toString (n / 100) ++ "." ++ pad2 (n % 100)

/-- A row of `models.Transaction`.  `status` ranges over the model's
choices `pending`, `succeeded`, `failed`; `amount` is in cents. -/
structure Transaction where
  id : Nat
  merchantId : Nat
  amount : Int
  currency : String
  description : String
  status : String
  createdAt : DateTime
  updatedAt : DateTime
deriving DecidableEq, Repr

/-- A row of `models.Refund` (`amount` in cents). -/
structure Refund where
  id : Nat
  transactionId : Nat
  amount : Int
  reason : String
  status : String
  createdAt : DateTime
deriving DecidableEq, Repr

/-- The `default='pending'` of the `status` column of `models.Refund`. -/
def refundModelDefaultStatus : String := "pending"

/-- A row of `models.Webhook`. -/
structure Webhook where
  id : Nat
  merchantId : Nat
  url : String
  secret : String
  createdAt : DateTime
deriving DecidableEq, Repr

/-- A row of `models.IdempotencyKey`.  `response_status` and
`response_body` are nullable columns. -/
structure IdempRecord where
  key : String
  method : String
  path : String
  response_status : Option Nat
  response_body : Option String
deriving DecidableEq, Repr

/-- The part of an HTTP request the idempotency middleware inspects:
the `Idempotency-Key` header, the method, the path, and the (opaque)
payload forwarded to the underlying handler. -/
structure Req where
  idempotencyKey : Option String
  method : String
  path : String
  payload : String
deriving DecidableEq, Repr

/-- An HTTP response: status code and rendered body. -/
structure Resp where
  status : Nat
  body : String
deriving DecidableEq, Repr

/-- `IdempotencyKey.objects.filter(key=key).first()`. -/
def findRecord (records : List IdempRecord) (k : String) : Option IdempRecord :=
  records.find? (fun r => r.key == k)

/-- `IdempotencyKey.objects.update_or_create(key=key, defaults={...})`
as executed by the middleware after the handler has produced `resp`. -/
def updateOrCreate (records : List IdempRecord) (k method path : String)
    (resp : Resp) : List IdempRecord :=
  if records.any (fun r => r.key == k) then
    records.map (fun r =>
      if r.key == k then
        { r with method := method, path := path,
                 response_status := some resp.status,
                 response_body := some resp.body }
      else r)
  else
    records ++ [{ key := k, method := method, path := path,
                  response_status := some resp.status,
                  response_body := some resp.body }]

/-- Result of one pass through `IdempotencyMiddleware.__call__`:
the response returned to the client, the idempotency table afterwards,
the rest of the state afterwards, and whether the wrapped handler
(`self.get_response`) ran. -/
structure GateOut (σ : Type) where
  resp : Resp
  records : List IdempRecord
  state : σ
  handlerInvoked : Bool

/-- `IdempotencyMiddleware.__call__`, wrapping an arbitrary downstream
handler acting on state `σ`.  Mirrors `middleware.py`: the table is
consulted only for requests that carry a key and whose method is POST
or PUT; a record with a populated `response_body` short-circuits to the
stored response; otherwise the handler runs and, in the guarded case,
its response is persisted with `update_or_create`. -/
def idempotencyMiddleware {σ : Type} (handler : Req → σ → Resp × σ)
    (records : List IdempRecord) (st : σ) (req : Req) : GateOut σ :=
  match req.idempotencyKey with
  | some k =>
    if req.method == "POST" || req.method == "PUT" then
      match findRecord records k with
      | some r =>
        match r.response_body with
        | some b =>
          { resp := { status := r.response_status.getD 200, body := b },
            records := records, state := st, handlerInvoked := false }
        | none =>
          let out := handler req st
          { resp := out.1,
            records := updateOrCreate records k req.method req.path out.1,
            state := out.2, handlerInvoked := true }
      | none =>
        let out := handler req st
        { resp := out.1,
          records := updateOrCreate records k req.method req.path out.1,
          state := out.2, handlerInvoked := true }
    else
      let out := handler req st
      { resp := out.1, records := records, state := out.2, handlerInvoked := true }
  | none =>
    let out := handler req st
    { resp := out.1, records := records, state := out.2, handlerInvoked := true }

/-- After `update_or_create` on a key that was not in the table, the
key is found and carries exactly the stored response. -/
theorem findRecord_updateOrCreate_of_none (records : List IdempRecord)
    (k method path : String) (resp : Resp)
    (h0 : findRecord records k = none) :
    findRecord (updateOrCreate records k method path resp) k =
      some { key := k, method := method, path := path,
             response_status := some resp.status,
             response_body := some resp.body } := by
  have hany : records.any (fun r => r.key == k) = false := by
    rw [List.any_eq_false]
    intro r hr
    have := List.find?_eq_none.mp h0 r hr
    simpa using this
  unfold updateOrCreate
  rw [hany]
  simp only [Bool.false_eq_true, if_false, findRecord, List.find?_append]
  rw [findRecord] at h0
  rw [h0]
  simp

/-- C2: once a key's record holds a populated `response_body`, any
later POST/PUT request bearing that key — built here as the second of
two requests through the gate, the first of which populated the record
— receives back exactly the stored `(response_status, response_body)`
pair, identical to the first response, the underlying handler is not
invoked, and the idempotency table is not written again, regardless of
the second request's payload. -/
theorem idempotent_replay_verbatim {σ : Type} (handler : Req → σ → Resp × σ)
    (records : List IdempRecord) (st : σ) (req1 req2 : Req) (k : String)
    (hk1 : req1.idempotencyKey = some k)
    (hk2 : req2.idempotencyKey = some k)
    (hm1 : req1.method = "POST" ∨ req1.method = "PUT")
    (hm2 : req2.method = "POST" ∨ req2.method = "PUT")
    (h0 : findRecord records k = none) :
    (idempotencyMiddleware handler
        (idempotencyMiddleware handler records st req1).records
        (idempotencyMiddleware handler records st req1).state req2).resp =
      (idempotencyMiddleware handler records st req1).resp ∧
    (idempotencyMiddleware handler
        (idempotencyMiddleware handler records st req1).records
        (idempotencyMiddleware handler records st req1).state req2).handlerInvoked
      = false ∧
    (idempotencyMiddleware handler
        (idempotencyMiddleware handler records st req1).records
        (idempotencyMiddleware handler records st req1).state req2).records =
      (idempotencyMiddleware handler records st req1).records ∧
    (idempotencyMiddleware handler
        (idempotencyMiddleware handler records st req1).records
        (idempotencyMiddleware handler records st req1).state req2).state =
      (idempotencyMiddleware handler records st req1).state ∧
    findRecord (idempotencyMiddleware handler records st req1).records k =
      some { key := k, method := req1.method, path := req1.path,
             response_status :=
               some (idempotencyMiddleware handler records st req1).resp.status,
             response_body :=
               some (idempotencyMiddleware handler records st req1).resp.body } := by
  have hg1 : (req1.method == "POST" || req1.method == "PUT") = true := by
    rcases hm1 with h | h <;> simp [h]
  have hg2 : (req2.method == "POST" || req2.method == "PUT") = true := by
    rcases hm2 with h | h <;> simp [h]
  have ho1 : idempotencyMiddleware handler records st req1 =
      { resp := (handler req1 st).1,
        records := updateOrCreate records k req1.method req1.path (handler req1 st).1,
        state := (handler req1 st).2, handlerInvoked := true } := by
    unfold idempotencyMiddleware
    rw [hk1]
    simp only [hg1, if_true, h0]
  have hfind := findRecord_updateOrCreate_of_none records k req1.method req1.path
      (handler req1 st).1 h0
  rw [ho1]
  simp only
  refine ⟨?_, ?_, ?_, ?_, hfind⟩ <;>
    · unfold idempotencyMiddleware
      rw [hk2]
      simp only [hg2, if_true, hfind]
      try simp

/-- Witness handler for the idempotency-gate theorems: echoes the
request payload and counts invocations in its state. -/
def demoHandler : Req → Nat → Resp × Nat :=
  fun q n => ({ status := 201, body := "created:" ++ q.payload }, n + 1)

/-- First demo request: POST with idempotency key `K` and one payload. -/
def demoReq1 : Req :=
  { idempotencyKey := some "K", method := "POST",
    path := "/api/transactions/pay", payload := "amount=100.00" }

/-- Retried demo request: same key `K`, different payload. -/
def demoReq2 : Req :=
  { idempotencyKey := some "K", method := "POST",
    path := "/api/transactions/pay", payload := "amount=200.00" }

/-- Witness for C2 at a concrete handler, store and request pair. -/
theorem idempotent_replay_verbatim_witness :
    (idempotencyMiddleware demoHandler
        (idempotencyMiddleware demoHandler [] 0 demoReq1).records
        (idempotencyMiddleware demoHandler [] 0 demoReq1).state demoReq2).resp =
      (idempotencyMiddleware demoHandler [] 0 demoReq1).resp ∧
    (idempotencyMiddleware demoHandler
        (idempotencyMiddleware demoHandler [] 0 demoReq1).records
        (idempotencyMiddleware demoHandler [] 0 demoReq1).state demoReq2).handlerInvoked
      = false ∧
    (idempotencyMiddleware demoHandler
        (idempotencyMiddleware demoHandler [] 0 demoReq1).records
        (idempotencyMiddleware demoHandler [] 0 demoReq1).state demoReq2).records =
      (idempotencyMiddleware demoHandler [] 0 demoReq1).records ∧
    (idempotencyMiddleware demoHandler
        (idempotencyMiddleware demoHandler [] 0 demoReq1).records
        (idempotencyMiddleware demoHandler [] 0 demoReq1).state demoReq2).state =
      (idempotencyMiddleware demoHandler [] 0 demoReq1).state ∧
    findRecord (idempotencyMiddleware demoHandler [] 0 demoReq1).records "K" =
      some { key := "K", method := demoReq1.method, path := demoReq1.path,
             response_status :=
               some (idempotencyMiddleware demoHandler [] 0 demoReq1).resp.status,
             response_body :=
               some (idempotencyMiddleware demoHandler [] 0 demoReq1).resp.body } :=
  idempotent_replay_verbatim demoHandler [] 0 demoReq1 demoReq2 "K"
    rfl rfl (Or.inl rfl) (Or.inl rfl) rfl

/-- C6: a request with no `Idempotency-Key` header, or whose method is
neither POST nor PUT, passes straight through the gate: the handler
runs, its response and state change are returned unchanged, and the
idempotency table is neither consulted nor written. -/
theorem gate_bypass_unguarded {σ : Type} (handler : Req → σ → Resp × σ)
    (records : List IdempRecord) (st : σ) (req : Req)
    (h : req.idempotencyKey = none ∨ (req.method ≠ "POST" ∧ req.method ≠ "PUT")) :
    (idempotencyMiddleware handler records st req).resp = (handler req st).1 ∧
    (idempotencyMiddleware handler records st req).state = (handler req st).2 ∧
    (idempotencyMiddleware handler records st req).records = records ∧
    (idempotencyMiddleware handler records st req).handlerInvoked = true := by
  rcases h with h | h
  · unfold idempotencyMiddleware
    rw [h]
    simp
  · cases hkey : req.idempotencyKey with
    | none =>
      unfold idempotencyMiddleware
      rw [hkey]
      simp
    | some k =>
      have hg : (req.method == "POST" || req.method == "PUT") = false := by
        simp only [Bool.or_eq_false_iff, beq_eq_false_iff_ne]
        exact h
      unfold idempotencyMiddleware
      rw [hkey]
      simp only [hg, Bool.false_eq_true, if_false]
      simp

/-- Unguarded demo request: a GET carrying an idempotency key. -/
def demoReqGet : Req :=
  { idempotencyKey := some "K", method := "GET",
    path := "/api/transactions/", payload := "" }

/-- Witness for C6 at a concrete GET request. -/
theorem gate_bypass_unguarded_witness :
    (idempotencyMiddleware demoHandler [] 0 demoReqGet).resp =
      (demoHandler demoReqGet 0).1 ∧
    (idempotencyMiddleware demoHandler [] 0 demoReqGet).state =
      (demoHandler demoReqGet 0).2 ∧
    (idempotencyMiddleware demoHandler [] 0 demoReqGet).records = [] ∧
    (idempotencyMiddleware demoHandler [] 0 demoReqGet).handlerInvoked = true :=
  gate_bypass_unguarded demoHandler [] 0 demoReqGet
    (Or.inr (by simp [demoReqGet]))

/-- `Transaction.objects.select_for_update().get(id=transaction_id)`:
lookup by primary key. -/
def findTx (txs : List Transaction) (txId : Nat) : Option Transaction :=
  txs.find? (fun t => t.id == txId)

/-- `tx.save()`: write the row with `tx`'s primary key back. -/
def saveTx (txs : List Transaction) (t : Transaction) : List Transaction :=
  txs.map (fun u => if u.id == t.id then t else u)

/-- The outcome draw `'succeeded' if random.random() > 0.2 else 'failed'`
in `tasks.process_transaction`, with the comparison result as input. -/
def settleOutcome (draw : Bool) : String :=
  if draw then "succeeded" else "failed"

/-- `tasks.process_transaction` after its sleep: under the row lock it
reads the transaction, assigns the drawn outcome to `status`, saves
(which bumps `updated_at`, an `auto_now` column), and then enqueues
`send_webhooks.delay(tx.id)`.  Returns the table afterwards and the
list of transaction ids for which a webhook fan-out job was enqueued.
A missing transaction is logged and nothing changes. -/
def process_transaction (txs : List Transaction) (txId : Nat) (draw : Bool)
    (now : DateTime) : List Transaction × List Nat :=
  match findTx txs txId with
  | none => (txs, [])
  | some tx =>
      let tx2 := { tx with status := settleOutcome draw, updatedAt := now }
      (saveTx txs tx2, [txId])

/-- An already-settled transaction, as re-delivery of its settlement
job would find it. -/
def txSettled : Transaction :=
  { id := 1, merchantId := 7, amount := 10000, currency := "USD",
    description := "", status := "succeeded",
    createdAt := { year := 2026, month := 1, day := 1, hour := 0, minute := 0, second := 0 },
    updatedAt := { year := 2026, month := 1, day := 1, hour := 0, minute := 5, second := 0 } }

/-- The timestamp of the re-delivered settlement job's save. -/
def redeliveryTime : DateTime :=
  { year := 2026, month := 1, day := 1, hour := 0, minute := 9, second := 0 }

/-- C1 fails on the code: `process_transaction` never re-checks that
the row it locked is still `pending`.  Re-delivering the settlement job
for a transaction already in the terminal state `succeeded`, with the
outcome draw falling on the failure side, overwrites the terminal
status with `failed` and enqueues a second webhook fan-out. -/
theorem settlement_overwrites_terminal_status :
    (process_transaction [txSettled] 1 false redeliveryTime).1 =
      [{ txSettled with status := "failed", updatedAt := redeliveryTime }] ∧
    (process_transaction [txSettled] 1 false redeliveryTime).2 = [1] := by
  constructor <;> rfl

/-- Members of a table with pairwise-distinct primary keys are
determined by their id. -/
theorem mem_id_inj {txs : List Transaction}
    (h : txs.Pairwise (fun a b => a.id ≠ b.id)) :
    ∀ u ∈ txs, ∀ v ∈ txs, u.id = v.id → u = v := by
  induction txs with
  | nil => intro u hu; simp at hu
  | cons a rest ih =>
    rw [List.pairwise_cons] at h
    intro u hu v hv hid
    rcases List.mem_cons.mp hu with rfl | hu2
    · rcases List.mem_cons.mp hv with rfl | hv2
      · rfl
      · exact absurd hid (h.1 v hv2)
    · rcases List.mem_cons.mp hv with rfl | hv2
      · exact absurd hid.symm (h.1 u hu2)
      · exact ih h.2 u hu2 v hv2 hid

/-- The columns settlement is not allowed to touch. -/
def frameFields (t : Transaction) : Nat × Nat × Int × String × String × DateTime :=
  (t.id, t.merchantId, t.amount, t.currency, t.description, t.createdAt)

/-- C8: settlement writes only `status` and `updated_at`: on a table
with distinct primary keys, every row's `id`, `merchant`, `amount`,
`currency`, `description` and `created_at` are the same before and
after `process_transaction` runs. -/
theorem settlement_frame (txs : List Transaction) (txId : Nat) (draw : Bool)
    (now : DateTime) (hids : txs.Pairwise (fun a b => a.id ≠ b.id)) :
    ((process_transaction txs txId draw now).1).map frameFields =
      txs.map frameFields := by
  cases hfind : findTx txs txId with
  | none => simp [process_transaction, hfind]
  | some tx =>
    have htx_mem : tx ∈ txs := List.mem_of_find?_eq_some hfind
    simp only [process_transaction, hfind, saveTx, List.map_map]
    apply List.map_congr_left
    intro u hu
    simp only [Function.comp_apply]
    by_cases hid : u.id = tx.id
    · have hu_eq : u = tx := mem_id_inj hids u hu tx htx_mem hid
      subst hu_eq
      simp [frameFields]
    · simp [hid]

/-- A pending transaction about to be settled. -/
def txPending : Transaction :=
  { id := 2, merchantId := 7, amount := 5000, currency := "EUR",
    description := "order 2", status := "pending",
    createdAt := { year := 2026, month := 2, day := 1, hour := 0, minute := 0, second := 0 },
    updatedAt := { year := 2026, month := 2, day := 1, hour := 0, minute := 0, second := 0 } }

/-- Witness for C8 on a concrete two-row table. -/
theorem settlement_frame_witness :
    ((process_transaction [txPending, txSettled] 2 true redeliveryTime).1).map frameFields =
      [txPending, txSettled].map frameFields :=
  settlement_frame [txPending, txSettled] 2 true redeliveryTime (by decide)

/-- Outcome of `RefundCreateView.post`: either a created refund with
the HTTP status 201, or a rejection with its HTTP status and error
message (every error path of the view, including the `Http404` raised
by the ownership-scoped lookup, is caught by its `except` clause and
returned as a 400 `standard_response`). -/
inductive RefundResult where
  | created (code : Nat) (refund : Refund)
  | rejected (code : Nat) (error : String)
deriving DecidableEq, Repr

/-- `RefundCreateView.post`: serializer validation (`amount > 0`,
transaction pk resolvable), ownership-scoped re-fetch, the
`status == 'succeeded'` check, the one-refund-per-transaction check
(`hasattr(tx, 'refund')`), the amount cap, then creation with
`status='succeeded'`.  `requestedStatus` is the `status` field of the
request body; the serializer lists it in `read_only_fields`, so it is
never read.  Returns the view's result and the refund table after. -/
def refundCreate (txs : List Transaction) (refunds : List Refund)
    (merchantId : Nat) (txId : Nat) (amount : Int) (reason : String)
    (requestedStatus : Option String) (newId : Nat) (now : DateTime) :
    RefundResult × List Refund :=
  if amount ≤ 0 then
    (.rejected 400 "Refund amount must be greater than zero", refunds)
  else
    match findTx txs txId with
    | none => (.rejected 400 "Invalid pk", refunds)
    | some tx =>
      if tx.merchantId ≠ merchantId then
        (.rejected 400 "No Transaction matches the given query.", refunds)
      else if tx.status ≠ "succeeded" then
        (.rejected 400 "Only succeeded transactions can be refunded", refunds)
      else if refunds.any (fun rf => rf.transactionId == tx.id) then
        (.rejected 400 "Transaction already refunded", refunds)
      else if tx.amount < amount then
        (.rejected 400 ("Refund amount cannot exceed transaction amount of " ++
          decimalString tx.amount), refunds)
      else
        let r : Refund := { id := newId, transactionId := tx.id, amount := amount,
                            reason := reason, status := "succeeded", createdAt := now }
        (.created 201 r, refunds ++ [r])

/-- On a table with distinct primary keys, a member with the looked-up
id is what `findTx` returns. -/
theorem findTx_of_mem {txs : List Transaction} {tx : Transaction} {txId : Nat}
    (hids : txs.Pairwise (fun a b => a.id ≠ b.id))
    (htx : tx ∈ txs) (hid : tx.id = txId) :
    findTx txs txId = some tx := by
  cases hfind : findTx txs txId with
  | none =>
    have := List.find?_eq_none.mp hfind tx htx
    simp [hid] at this
  | some u =>
    have hu_mem : u ∈ txs := List.mem_of_find?_eq_some hfind
    have hu_id : u.id = txId := by
      have := List.find?_some hfind
      simpa using this
    have : u = tx := mem_id_inj hids u hu_mem tx htx (hu_id.trans hid.symm)
    rw [this]

/-- The preconditions under which `RefundCreateView.post` creates a
refund, phrased over the target transaction row. -/
def refundPreconditions (txs : List Transaction) (refunds : List Refund)
    (merchantId txId : Nat) (amount : Int) : Prop :=
  ∃ tx, tx ∈ txs ∧ tx.id = txId ∧ tx.merchantId = merchantId ∧
    tx.status = "succeeded" ∧ (∀ rf ∈ refunds, rf.transactionId ≠ txId) ∧
    0 < amount ∧ amount ≤ tx.amount

/-- C3: refund creation succeeds (201, refund appended) exactly when
the target transaction exists, belongs to the requesting merchant, is
`succeeded`, has no refund yet, and `0 < amount ≤ tx.amount`; every
violation is rejected with a 400 and leaves the refund table unchanged;
an amount above the transaction amount draws the "cannot exceed" error,
and an existing refund draws the duplicate error. -/
theorem refund_create_iff (txs : List Transaction) (refunds : List Refund)
    (merchantId txId : Nat) (amount : Int) (reason : String)
    (requestedStatus : Option String) (newId : Nat) (now : DateTime)
    (hids : txs.Pairwise (fun a b => a.id ≠ b.id)) :
    ((∃ c r, (refundCreate txs refunds merchantId txId amount reason
        requestedStatus newId now).1 = .created c r) ↔
      refundPreconditions txs refunds merchantId txId amount) ∧
    (∀ c r, (refundCreate txs refunds merchantId txId amount reason
        requestedStatus newId now).1 = .created c r →
      c = 201 ∧ (refundCreate txs refunds merchantId txId amount reason
        requestedStatus newId now).2 = refunds ++ [r]) ∧
    (∀ c e, (refundCreate txs refunds merchantId txId amount reason
        requestedStatus newId now).1 = .rejected c e →
      c = 400 ∧ (refundCreate txs refunds merchantId txId amount reason
        requestedStatus newId now).2 = refunds) ∧
    (∀ tx, tx ∈ txs → tx.id = txId → tx.merchantId = merchantId →
      tx.status = "succeeded" → (∀ rf ∈ refunds, rf.transactionId ≠ txId) →
      0 < amount → tx.amount < amount →
      (refundCreate txs refunds merchantId txId amount reason
        requestedStatus newId now).1 =
        .rejected 400 ("Refund amount cannot exceed transaction amount of " ++
          decimalString tx.amount)) ∧
    (∀ tx, tx ∈ txs → tx.id = txId → tx.merchantId = merchantId →
      tx.status = "succeeded" → (∃ rf ∈ refunds, rf.transactionId = txId) →
      0 < amount →
      (refundCreate txs refunds merchantId txId amount reason
        requestedStatus newId now).1 = .rejected 400 "Transaction already refunded") := by
  have hcases : ∀ c r, (refundCreate txs refunds merchantId txId amount reason
      requestedStatus newId now).1 = .created c r →
      c = 201 ∧ (refundCreate txs refunds merchantId txId amount reason
        requestedStatus newId now).2 = refunds ++ [r] := by
    intro c r
    unfold refundCreate
    repeat' split
    all_goals intro h
    all_goals simp_all
  have hcases2 : ∀ c e, (refundCreate txs refunds merchantId txId amount reason
      requestedStatus newId now).1 = .rejected c e →
      c = 400 ∧ (refundCreate txs refunds merchantId txId amount reason
        requestedStatus newId now).2 = refunds := by
    intro c e
    unfold refundCreate
    repeat' split
    all_goals intro h
    all_goals simp_all
  refine ⟨?_, hcases, hcases2, ?_, ?_⟩
  · constructor
    · intro ⟨c, r, h⟩
      by_cases hamt : amount ≤ 0
      · simp [refundCreate, hamt] at h
      cases hfind : findTx txs txId with
      | none => simp [refundCreate, hamt, hfind] at h
      | some tx =>
        have htx_mem : tx ∈ txs := List.mem_of_find?_eq_some hfind
        have htx_id : tx.id = txId := by
          have := List.find?_some hfind
          simpa using this
        by_cases hm : tx.merchantId ≠ merchantId
        · simp [refundCreate, hamt, hfind, hm] at h
        by_cases hs : tx.status ≠ "succeeded"
        · simp [refundCreate, hamt, hfind, hm, hs] at h
        by_cases hdup : refunds.any (fun rf => rf.transactionId == tx.id) = true
        · simp [refundCreate, hamt, hfind, hm, hs, hdup] at h
        by_cases hex : tx.amount < amount
        · simp [refundCreate, hamt, hfind, hm, hs, hdup, hex] at h
        refine ⟨tx, htx_mem, htx_id, not_not.mp hm, not_not.mp hs, ?_, by omega, by omega⟩
        intro rf hrf
        have := (List.any_eq_false.mp (Bool.not_eq_true _ |>.mp hdup)) rf hrf
        rw [htx_id] at this
        simpa using this
    · intro ⟨tx, htx_mem, htx_id, hm, hs, hnoref, hpos, hle⟩
      have hfind : findTx txs txId = some tx := findTx_of_mem hids htx_mem htx_id
      have hamt : ¬ amount ≤ 0 := by omega
      have hdup : refunds.any (fun rf => rf.transactionId == tx.id) = false := by
        rw [List.any_eq_false]
        intro rf hrf
        have := hnoref rf hrf
        rw [htx_id]
        simpa using this
      have hex : ¬ tx.amount < amount := by omega
      refine ⟨201, { id := newId, transactionId := tx.id, amount := amount,
                     reason := reason, status := "succeeded", createdAt := now }, ?_⟩
      simp [refundCreate, hamt, hfind, hm, hs, hdup, hex]
  · intro tx htx_mem htx_id hm hs hnoref hpos hex
    have hfind : findTx txs txId = some tx := findTx_of_mem hids htx_mem htx_id
    have hamt : ¬ amount ≤ 0 := by omega
    have hdup : refunds.any (fun rf => rf.transactionId == tx.id) = false := by
      rw [List.any_eq_false]
      intro rf hrf
      have := hnoref rf hrf
      rw [htx_id]
      simpa using this
    simp [refundCreate, hamt, hfind, hm, hs, hdup, hex]
  · intro tx htx_mem htx_id hm hs hdup hpos
    have hfind : findTx txs txId = some tx := findTx_of_mem hids htx_mem htx_id
    have hamt : ¬ amount ≤ 0 := by omega
    have hany : refunds.any (fun rf => rf.transactionId == tx.id) = true := by
      rcases hdup with ⟨rf, hrf, hrfid⟩
      rw [List.any_eq_true]
      exact ⟨rf, hrf, by rw [htx_id]; simpa using hrfid⟩
    simp [refundCreate, hamt, hfind, hm, hs, hany]

/-- A succeeded transaction of 100.00 owned by merchant 7, the target
of the witness refund. -/
def txSucceeded : Transaction :=
  { id := 3, merchantId := 7, amount := 10000, currency := "USD",
    description := "order 3", status := "succeeded",
    createdAt := { year := 2026, month := 3, day := 1, hour := 0, minute := 0, second := 0 },
    updatedAt := { year := 2026, month := 3, day := 1, hour := 0, minute := 4, second := 0 } }

/-- Creation time of the witness refund. -/
def refundTime : DateTime :=
  { year := 2026, month := 3, day := 2, hour := 0, minute := 0, second := 0 }

/-- Witness for C3: a 50.00 refund against the succeeded 100.00
transaction is accepted. -/
theorem refund_create_iff_witness :
    ∃ c r, (refundCreate [txSucceeded] [] 7 3 5000 "customer request"
      none 11 refundTime).1 = .created c r :=
  (refund_create_iff [txSucceeded] [] 7 3 5000 "customer request" none 11 refundTime
      (by decide)).1.mpr
    ⟨txSucceeded, by simp, rfl, rfl, rfl, by simp, by decide, by decide⟩

/-- C9: every refund the endpoint creates is persisted with status
`succeeded`: the result is independent of any client-supplied `status`
field (the serializer marks it read-only), the created row's status is
always `succeeded`, and this differs from the model default `pending`. -/
theorem refund_status_always_succeeded (txs : List Transaction)
    (refunds : List Refund) (merchantId txId : Nat) (amount : Int)
    (reason : String) (s1 s2 : Option String) (newId : Nat) (now : DateTime) :
    (∀ c r, (refundCreate txs refunds merchantId txId amount reason
        s1 newId now).1 = .created c r → r.status = "succeeded") ∧
    refundCreate txs refunds merchantId txId amount reason s1 newId now =
      refundCreate txs refunds merchantId txId amount reason s2 newId now ∧
    refundModelDefaultStatus = "pending" ∧
    "succeeded" ≠ refundModelDefaultStatus := by
  refine ⟨?_, rfl, rfl, by decide⟩
  intro c r
  unfold refundCreate
  repeat' split
  all_goals intro h
  all_goals try (simp at h)
  obtain ⟨-, hr⟩ := h
  subst hr
  rfl

/-- The row the witness refund call persists. -/
def refundWitnessRow : Refund :=
  { id := 11, transactionId := 3, amount := 5000, reason := "customer request",
    status := "succeeded", createdAt := refundTime }

/-- Witness for C9: the concrete refund above is stored as `succeeded`
even though the request body asked for status `pending`. -/
theorem refund_status_always_succeeded_witness :
    refundWitnessRow.status = "succeeded" ∧
    refundCreate [txSucceeded] [] 7 3 5000 "customer request"
        (some "pending") 11 refundTime =
      refundCreate [txSucceeded] [] 7 3 5000 "customer request"
        none 11 refundTime :=
  ⟨(refund_status_always_succeeded [txSucceeded] [] 7 3 5000 "customer request"
      (some "pending") none 11 refundTime).1 201 refundWitnessRow (by decide),
   (refund_status_always_succeeded [txSucceeded] [] 7 3 5000 "customer request"
      (some "pending") none 11 refundTime).2.1⟩

/-- `WebhookTask.retry_kwargs['max_retries']`. -/
def webhookMaxRetries : Nat := 2

/-- `WebhookTask.retry_kwargs['countdown']`: the fixed inter-attempt
delay in time units. -/
def webhookRetryCountdown : Nat := 3

/-- What the job queue records for one `deliver_webhook` job:
how many attempts ran, the delay scheduled before each retry, whether
`WebhookTask.on_failure` fired (permanent failure logged), and whether
some attempt delivered. -/
structure DeliveryLog where
  attempts : Nat
  delays : List Nat
  permanentFailureLogged : Bool
  delivered : Bool
deriving DecidableEq, Repr

/-- The retry loop `autoretry_for = (Exception,)` induces around
`deliver_webhook`: attempt `i` succeeds when `outcomes i` is true
(a 2xx response); on failure (non-2xx `raise_for_status`, a
`requests.RequestException`, or a timeout — all re-raised), the task is
retried after `countdown` while retries remain, and `on_failure` runs
once they are exhausted.  `fuel` is the number of attempts still
allowed. -/
def runDeliveryAux (outcomes : Nat → Bool) (i : Nat) : Nat → DeliveryLog
  | 0 => { attempts := 0, delays := [], permanentFailureLogged := true, delivered := false }
  | fuel + 1 =>
    if outcomes i then
      { attempts := 1, delays := [], permanentFailureLogged := false, delivered := true }
    else
      match fuel with
      | 0 => { attempts := 1, delays := [], permanentFailureLogged := true, delivered := false }
      | f + 1 =>
        let rest := runDeliveryAux outcomes (i + 1) (f + 1)
        { attempts := rest.attempts + 1,
          delays := webhookRetryCountdown :: rest.delays,
          permanentFailureLogged := rest.permanentFailureLogged,
          delivered := rest.delivered }

/-- One `deliver_webhook` job run to completion under the
`WebhookTask` policy: `max_retries = 2` retries after the initial
attempt. -/
def runDelivery (outcomes : Nat → Bool) : DeliveryLog :=
  runDeliveryAux outcomes 0 (webhookMaxRetries + 1)

/-- C4: a webhook delivery job makes at most 3 attempts; every retry
is scheduled after the fixed 3-time-unit delay (one delay per retry);
a first-attempt success stops after 1 attempt, a success on the second
or third attempt stops there; and when all three attempts fail the
job stops at 3 attempts with the permanent failure logged through
`on_failure`, never silently dropped. -/
theorem webhook_retry_policy (outcomes : Nat → Bool) :
    (runDelivery outcomes).attempts ≤ 3 ∧
    1 ≤ (runDelivery outcomes).attempts ∧
    (runDelivery outcomes).delays.length = (runDelivery outcomes).attempts - 1 ∧
    (∀ d ∈ (runDelivery outcomes).delays, d = 3) ∧
    (outcomes 0 = true →
      (runDelivery outcomes).attempts = 1 ∧
      (runDelivery outcomes).delivered = true ∧
      (runDelivery outcomes).permanentFailureLogged = false) ∧
    (outcomes 0 = false → outcomes 1 = true →
      (runDelivery outcomes).attempts = 2 ∧
      (runDelivery outcomes).delivered = true ∧
      (runDelivery outcomes).permanentFailureLogged = false) ∧
    (outcomes 0 = false → outcomes 1 = false → outcomes 2 = true →
      (runDelivery outcomes).attempts = 3 ∧
      (runDelivery outcomes).delivered = true ∧
      (runDelivery outcomes).permanentFailureLogged = false) ∧
    (outcomes 0 = false → outcomes 1 = false → outcomes 2 = false →
      (runDelivery outcomes).attempts = 3 ∧
      (runDelivery outcomes).delivered = false ∧
      (runDelivery outcomes).permanentFailureLogged = true) := by
  cases h0 : outcomes 0 <;> cases h1 : outcomes 1 <;> cases h2 : outcomes 2 <;>
    simp [runDelivery, runDeliveryAux, webhookMaxRetries, webhookRetryCountdown,
      h0, h1, h2]

/-- Witness for C4: an endpoint that fails its first two attempts and
succeeds on the third is delivered after exactly 3 attempts, with two
3-unit delays and no permanent failure. -/
theorem webhook_retry_policy_witness :
    (runDelivery (fun i => 2 ≤ i)).attempts = 3 ∧
    (runDelivery (fun i => 2 ≤ i)).delivered = true ∧
    (runDelivery (fun i => 2 ≤ i)).permanentFailureLogged = false ∧
    (∀ d ∈ (runDelivery (fun i => 2 ≤ i)).delays, d = 3) :=
  ⟨((webhook_retry_policy (fun i => 2 ≤ i)).2.2.2.2.2.2.1
      (by decide) (by decide) (by decide)).1,
   ((webhook_retry_policy (fun i => 2 ≤ i)).2.2.2.2.2.2.1
      (by decide) (by decide) (by decide)).2.1,
   ((webhook_retry_policy (fun i => 2 ≤ i)).2.2.2.2.2.2.1
      (by decide) (by decide) (by decide)).2.2,
   (webhook_retry_policy (fun i => 2 ≤ i)).2.2.2.1⟩

/-- The nested refund rendering of `RefundSerializer` inside the
transaction detail response. -/
structure RefundData where
  id : Nat
  transactionId : Nat
  amount : String
  reason : String
  status : String
  created_at : String
deriving DecidableEq, Repr

/-- `RefundSerializer(refund).data` on its read fields. -/
def serializeRefund (rf : Refund) : RefundData :=
  { id := rf.id, transactionId := rf.transactionId,
    amount := decimalString rf.amount, reason := rf.reason,
    status := rf.status, created_at := isoFormat rf.createdAt }

/-- `TransactionDetailSerializer(tx).data`: the read fields of the
serializer (`payment_key` is write-only and `refund` is the nested
one-to-one refund, if any). -/
structure TxDetailData where
  id : Nat
  amount : String
  currency : String
  description : String
  status : String
  created_at : String
  updated_at : String
  refund : Option RefundData
deriving DecidableEq, Repr

/-- Serialize a transaction row for the detail endpoint. -/
def serializeTxDetail (refunds : List Refund) (tx : Transaction) : TxDetailData :=
  { id := tx.id, amount := decimalString tx.amount, currency := tx.currency,
    description := tx.description, status := tx.status,
    created_at := isoFormat tx.createdAt, updated_at := isoFormat tx.updatedAt,
    refund := (refunds.find? (fun rf => rf.transactionId == tx.id)).map serializeRefund }

/-- Result of `TransactionDetailView.retrieve`. -/
inductive RetrieveResult where
  | ok (code : Nat) (data : TxDetailData)
  | notFound (code : Nat) (error : String)
deriving DecidableEq, Repr

/-- `TransactionDetailView.retrieve`: the cache is consulted first
under the key `transaction:{pk}` — a key with no merchant component —
and only on a miss is the queryset (scoped to the requesting merchant)
consulted, after which the serialized row is cached under that same
unscoped key.  Returns the response and the cache afterwards. -/
def transactionDetailRetrieve (cache : List (Nat × TxDetailData))
    (txs : List Transaction) (refunds : List Refund)
    (merchantId : Nat) (pk : Nat) : RetrieveResult × List (Nat × TxDetailData) :=
  match cache.find? (fun e => e.1 == pk) with
  | some e => (.ok 200 e.2, cache)
  | none =>
    match txs.find? (fun t => t.id == pk && t.merchantId == merchantId) with
    | none => (.notFound 404 "Transaction not found", cache)
    | some tx =>
      let data := serializeTxDetail refunds tx
      (.ok 200 data, (pk, data) :: cache)

/-- A transaction owned by merchant 9, which merchant 8 will attempt
to read. -/
def txForeign : Transaction :=
  { id := 42, merchantId := 9, amount := 7700, currency := "USD",
    description := "other tenant", status := "succeeded",
    createdAt := { year := 2026, month := 4, day := 1, hour := 0, minute := 0, second := 0 },
    updatedAt := { year := 2026, month := 4, day := 1, hour := 0, minute := 4, second := 0 } }

/-- C5 fails on the code: with a cold cache, merchant 8 asking for
merchant 9's transaction 42 correctly gets a 404; but after merchant 9
(the owner) has read it once — populating the cache under the
merchant-blind key `transaction:42` — the very same request by
merchant 8 is served merchant 9's serialized transaction with a 200,
straight from the cache, before any ownership check runs. -/
theorem detail_cache_leaks_cross_merchant :
    (transactionDetailRetrieve [] [txForeign] [] 8 42).1 =
      .notFound 404 "Transaction not found" ∧
    (transactionDetailRetrieve
        (transactionDetailRetrieve [] [txForeign] [] 9 42).2
        [txForeign] [] 8 42).1 =
      .ok 200 (serializeTxDetail [] txForeign) ∧
    txForeign.merchantId ≠ 8 := by
  refine ⟨rfl, rfl, by decide⟩

/-- A JSON scalar as it appears in a rendered payload. -/
inductive JVal where
  | num (n : Nat)
  | str (s : String)
deriving DecidableEq, Repr

/-- The outbound webhook payload dictionary built in
`tasks.send_webhooks`, in source order. -/
def webhookPayload (tx : Transaction) : List (String × JVal) :=
  [("id", .num tx.id),
   ("status", .str tx.status),
   ("amount", .str (decimalString tx.amount)),
   ("currency", .str tx.currency),
   ("description", .str tx.description),
   ("created_at", .str (isoFormat tx.createdAt)),
   ("updated_at", .str (isoFormat tx.updatedAt))]

/-- `tasks.send_webhooks`: load the transaction, collect the webhooks
registered for its merchant, and enqueue one `deliver_webhook` job per
endpoint, each carrying the payload snapshot built once from the row
just read.  Returns the enqueued `(webhook id, payload)` jobs; a
missing transaction, or no registered endpoints, enqueues nothing. -/
def send_webhooks (txs : List Transaction) (webhooks : List Webhook)
    (txId : Nat) : List (Nat × List (String × JVal)) :=
  match findTx txs txId with
  | none => []
  | some tx =>
    (webhooks.filter (fun w => w.merchantId == tx.merchantId)).map
      (fun w => (w.id, webhookPayload tx))

/-- C7: every job the fan-out step enqueues carries a payload whose
keys are exactly `id, status, amount, currency, description,
created_at, updated_at`, with `amount` the decimal rendered as a
string, both timestamps in ISO-8601 form, and every value drawn from
the transaction row as read at fan-out time. -/
theorem webhook_payload_shape (txs : List Transaction) (webhooks : List Webhook)
    (txId : Nat) (tx : Transaction) (hfind : findTx txs txId = some tx) :
    (∀ job ∈ send_webhooks txs webhooks txId, job.2 = webhookPayload tx) ∧
    (webhookPayload tx).map Prod.fst =
      ["id", "status", "amount", "currency", "description",
       "created_at", "updated_at"] ∧
    (webhookPayload tx).lookup "id" = some (.num tx.id) ∧
    (webhookPayload tx).lookup "status" = some (.str tx.status) ∧
    (webhookPayload tx).lookup "amount" = some (.str (decimalString tx.amount)) ∧
    (webhookPayload tx).lookup "currency" = some (.str tx.currency) ∧
    (webhookPayload tx).lookup "description" = some (.str tx.description) ∧
    (webhookPayload tx).lookup "created_at" = some (.str (isoFormat tx.createdAt)) ∧
    (webhookPayload tx).lookup "updated_at" = some (.str (isoFormat tx.updatedAt)) := by
  refine ⟨?_, by simp [webhookPayload], ?_, ?_, ?_, ?_, ?_, ?_, ?_⟩
  · intro job hjob
    unfold send_webhooks at hjob
    rw [hfind] at hjob
    rcases List.mem_map.mp hjob with ⟨w, hw, rfl⟩
    rfl
  all_goals simp [webhookPayload, List.lookup]

/-- An endpoint registered by the merchant owning `txSettled`. -/
def webhookEndpoint : Webhook :=
  { id := 5, merchantId := 7, url := "https://merchant.example/hook",
    secret := "whsec-demo",
    createdAt := { year := 2026, month := 1, day := 1, hour := 0, minute := 0, second := 0 } }

/-- Witness for C7 on the settled transaction and one endpoint. -/
theorem webhook_payload_shape_witness :
    (∀ job ∈ send_webhooks [txSettled] [webhookEndpoint] 1,
      job.2 = webhookPayload txSettled) ∧
    (webhookPayload txSettled).map Prod.fst =
      ["id", "status", "amount", "currency", "description",
       "created_at", "updated_at"] :=
  ⟨(webhook_payload_shape [txSettled] [webhookEndpoint] 1 txSettled rfl).1,
   (webhook_payload_shape [txSettled] [webhookEndpoint] 1 txSettled rfl).2.1⟩

/-- `WebhookSerializer(w).data`: only `id`, `url` and `created_at` are
listed in the serializer's fields. -/
def serializeWebhook (w : Webhook) : List (String × JVal) :=
  [("id", .num w.id),
   ("url", .str w.url),
   ("created_at", .str (isoFormat w.createdAt))]

/-- `url.startswith(('http://', 'https://'))` for one candidate
scheme, computed on the character lists. -/
def strStartsWith (s pre : String) : Bool :=
  pre.data.isPrefixOf s.data

/-- The webhook row `Webhook.objects.create` builds. -/
def newWebhookRow (newId merchantId : Nat) (url secret : String)
    (now : DateTime) : Webhook :=
  { id := newId, merchantId := merchantId, url := url,
    secret := secret, createdAt := now }

/-- `WebhookListCreateView.post`: validate the URL scheme, create the
row with a freshly generated `secret` (`secrets.token_urlsafe(16)`,
passed in here as the draw of that generator), and respond 201 with
the serialized row; an invalid URL is rejected 400 with no row
created.  Returns `(status, body)` and the webhook table after. -/
def webhookCreate (webhooks : List Webhook) (merchantId : Nat) (url : String)
    (newId : Nat) (secret : String) (now : DateTime) :
    (Nat × Option (List (String × JVal))) × List Webhook :=
  if strStartsWith url "http://" || strStartsWith url "https://" then
    let w := newWebhookRow newId merchantId url secret now
    ((201, some (serializeWebhook w)), webhooks ++ [w])
  else
    ((400, none), webhooks)

/-- `WebhookListCreateView.get`: serialize the merchant's webhooks. -/
def webhookList (webhooks : List Webhook) (merchantId : Nat) :
    List (List (String × JVal)) :=
  (webhooks.filter (fun w => w.merchantId == merchantId)).map serializeWebhook

/-- C10: webhook API responses never carry the secret: the serialized
form of any webhook row has exactly the keys `id`, `url`, `created_at`
(no `secret` key), both the create response and the list response are
unchanged under replacing the generated secret by any other, and yet a
successful create does store the generated secret on the row. -/
theorem webhook_secret_never_in_response (webhooks : List Webhook)
    (merchantId : Nat) (url : String) (newId : Nat) (s1 s2 : String)
    (now : DateTime) (w : Webhook) :
    (serializeWebhook w).map Prod.fst = ["id", "url", "created_at"] ∧
    "secret" ∉ (serializeWebhook w).map Prod.fst ∧
    (webhookCreate webhooks merchantId url newId s1 now).1 =
      (webhookCreate webhooks merchantId url newId s2 now).1 ∧
    webhookList (webhooks ++ [newWebhookRow newId merchantId url s1 now]) merchantId =
      webhookList (webhooks ++ [newWebhookRow newId merchantId url s2 now]) merchantId ∧
    ((strStartsWith url "http://" || strStartsWith url "https://") = true →
      (webhookCreate webhooks merchantId url newId s1 now).2 =
        webhooks ++ [newWebhookRow newId merchantId url s1 now]) := by
  refine ⟨by simp [serializeWebhook], by simp [serializeWebhook], ?_, ?_, ?_⟩
  · unfold webhookCreate
    split <;> rfl
  · simp [webhookList, List.filter_append, serializeWebhook, newWebhookRow]
  · intro h
    simp [webhookCreate, h]

/-- Witness for C10: a concrete create call whose URL passes
validation. -/
theorem webhook_secret_never_in_response_witness :
    (serializeWebhook webhookEndpoint).map Prod.fst = ["id", "url", "created_at"] ∧
    (webhookCreate [] 7 "https://merchant.example/hook" 5 "whsec-demo"
        webhookEndpoint.createdAt).1 =
      (webhookCreate [] 7 "https://merchant.example/hook" 5 "other-secret"
        webhookEndpoint.createdAt).1 ∧
    (webhookCreate [] 7 "https://merchant.example/hook" 5 "whsec-demo"
        webhookEndpoint.createdAt).2 =
      [newWebhookRow 5 7 "https://merchant.example/hook" "whsec-demo"
        webhookEndpoint.createdAt] :=
  ⟨(webhook_secret_never_in_response [] 7 "https://merchant.example/hook" 5
      "whsec-demo" "other-secret" webhookEndpoint.createdAt webhookEndpoint).1,
   (webhook_secret_never_in_response [] 7 "https://merchant.example/hook" 5
      "whsec-demo" "other-secret" webhookEndpoint.createdAt webhookEndpoint).2.2.1,
   (webhook_secret_never_in_response [] 7 "https://merchant.example/hook" 5
      "whsec-demo" "other-secret" webhookEndpoint.createdAt webhookEndpoint).2.2.2.2
     (by decide)⟩

end Payments
